import Mathlib

/-!
Shallow embedding of the drone telemetry mission firmware
(firmware/esp32_gps_telemetry.ino) and of the operator-side serial link
logic (frontend/assets/js/app.js and the script appended to the firmware
file).  C floats are modelled as real numbers, C `int` as `Int`, the
fixed waypoint array of size 20 as a function `Fin 20 → Waypoint`, and
JS strings fed to the line framer as `List Char`.  Serial output
(`Serial.println` log lines and `sendJSON` events) is modelled as a list
of `Ev` values produced by each operation.
-/

/-- Mission state enum of the firmware (`enum MissionState`). -/
inductive MissionState where
  | WAITING
  | LOADED
  | NAVIGATING
  | COMPLETE
deriving DecidableEq, Repr

/-- `struct Waypoint` of the firmware. -/
structure Waypoint where
  name : String
  lat : ℝ
  lng : ℝ
  alt : ℝ
  reached : Bool

/-- A zero-initialised waypoint slot (what `resetMission` writes). -/
noncomputable def emptyWaypoint : Waypoint :=
  { name := "", lat := 0, lng := 0, alt := 0, reached := false }

/-- The GPS fix consumed by the mission logic: `gps.location.lat()`,
`gps.location.lng()` and `gps.location.isValid()`. -/
structure GpsFix where
  lat : ℝ
  lng : ℝ
  valid : Bool

/-- The firmware's module-level mission variables, gathered into one
record: `missionActive`, `currentWaypointIndex`, `totalWaypoints`,
`maxSpeed`, `maxAltitude`, `enableReturnToHome`, `missionId`,
`missionState`, and the fixed array `waypoints[20]`. -/
structure ControllerState where
  missionActive : Bool
  currentWaypointIndex : Int
  totalWaypoints : Int
  maxSpeed : ℝ
  maxAltitude : ℝ
  enableReturnToHome : Bool
  missionId : String
  missionState : MissionState
  waypoints : Fin 20 → Waypoint

/-- Initial values of the firmware's globals. -/
noncomputable def initialState : ControllerState :=
  { missionActive := false
    currentWaypointIndex := -1
    totalWaypoints := 0
    maxSpeed := 0
    maxAltitude := 0
    enableReturnToHome := false
    missionId := ""
    missionState := MissionState.WAITING
    waypoints := fun _ => emptyWaypoint }

/-- Read `waypoints[i]` with a C `int` index; an index outside the
array bounds (undefined behaviour in C) reads as an empty slot. -/
noncomputable def wpAt (w : Fin 20 → Waypoint) (i : Int) : Waypoint :=
  if h : 0 ≤ i ∧ i < 20 then w ⟨i.toNat, by omega⟩ else emptyWaypoint

/-- `const float waypointReachedDistance = 5.0`. -/
noncomputable def waypointReachedDistance : ℝ := 5

/-- Serial output of the controller: plain `Serial.println` log lines
and the JSON events emitted through `sendJSON`, one constructor per
`sendJSON` call site, carrying the payload fields the site writes. -/
inductive Ev where
  | log (msg : String)
  | statusEv (status : String)
  | missionStatus (active : Bool) (st : MissionState) (cur : Int) (total : Int)
  | missionConfirmation (id : String) (total : Int) (status : String)
  | navStarted (id : String) (idx : Int) (name : String) (tlat : ℝ) (tlng : ℝ)
  | waypointReached (id : String) (idx : Int) (name : String) (acc : ℝ) (clat : ℝ) (clng : ℝ)
  | navigatingTo (id : String) (idx : Int) (name : String) (tlat : ℝ) (tlng : ℝ)
  | returningHome (id : Option String)
  | missionComplete (id : String)

/-- One entry of the `waypoints` JSON array of a `start_mission`
command; ArduinoJson yields a default (0 / empty) value for a missing
field, modelled by `Option` with `getD`. -/
structure WaypointSpec where
  name : Option String
  latitude : Option ℝ
  longitude : Option ℝ
  altitude : Option ℝ

/-- A missing array element reads as an all-null object. -/
def nullWaypointSpec : WaypointSpec :=
  { name := none, latitude := none, longitude := none, altitude := none }

/-- The payload of a `start_mission` command. -/
structure MissionSpec where
  totalWaypoints : Int
  maxSpeed : ℝ
  maxAltitude : ℝ
  returnToHome : Bool
  createdAt : String
  waypoints : List WaypointSpec

/-- Loading one waypoint from the JSON array (missing fields read 0 /
empty, `reached` cleared). -/
noncomputable def loadWaypoint (w : WaypointSpec) : Waypoint :=
  { name := w.name.getD ""
    lat := w.latitude.getD 0
    lng := w.longitude.getD 0
    alt := w.altitude.getD 0
    reached := false }

/-- A parsed command (`doc["action"]` dispatch of `processCommand`);
`unknown` is any action string matching no branch. -/
inductive Cmd where
  | startMission (spec : MissionSpec)
  | getStatus
  | emergencyStop
  | returnHome
  | unknown (action : String)

/-- `resetMission()`: clears every waypoint slot, zeroes the count,
sets `currentWaypointIndex = -1`, clears the id, returns to `WAITING`,
and prints a log line.  It does not touch `missionActive`, `maxSpeed`,
`maxAltitude` or `enableReturnToHome`. -/
noncomputable def resetMission (s : ControllerState) : ControllerState × List Ev :=
  ({ s with
      waypoints := fun _ => emptyWaypoint
      totalWaypoints := 0
      currentWaypointIndex := -1
      missionId := ""
      missionState := MissionState.WAITING },
   [Ev.log "Ready for next mission"])

/-- `completeMission()`: logs, sets `COMPLETE`, clears the active flag,
emits `returning_home` if `enableReturnToHome` else `mission_complete`,
then calls `resetMission()`. -/
noncomputable def completeMission (s : ControllerState) : ControllerState × List Ev :=
  let s1 := { s with missionState := MissionState.COMPLETE, missionActive := false }
  let evs := Ev.log "Mission complete" ::
    (if s.enableReturnToHome then
      [Ev.log "Returning to home", Ev.returningHome (some s.missionId)]
     else
      [Ev.missionComplete s.missionId])
  let r := resetMission s1
  (r.1, evs ++ r.2)

/-- `calculateDistance`'s `atan2(y, x)` (C math library semantics). -/
noncomputable def atan2 (y x : ℝ) : ℝ :=
  if 0 < x then Real.arctan (y / x)
  else if x < 0 ∧ 0 ≤ y then Real.arctan (y / x) + Real.pi
  else if x < 0 ∧ y < 0 then Real.arctan (y / x) - Real.pi
  else if x = 0 ∧ 0 < y then Real.pi / 2
  else if x = 0 ∧ y < 0 then -(Real.pi / 2)
  else 0

/-- `calculateDistance`: haversine great-circle distance with Earth
radius `R = 6371000` metres. -/
noncomputable def calculateDistance (lat1 lng1 lat2 lng2 : ℝ) : ℝ :=
  let R : ℝ := 6371000
  let dLat := (lat2 - lat1) * Real.pi / 180
  let dLng := (lng2 - lng1) * Real.pi / 180
  let a := Real.sin (dLat / 2) * Real.sin (dLat / 2) +
    Real.cos (lat1 * Real.pi / 180) * Real.cos (lat2 * Real.pi / 180) *
    Real.sin (dLng / 2) * Real.sin (dLng / 2)
  let c := 2 * atan2 (Real.sqrt a) (Real.sqrt (1 - a))
  R * c

/-- `loadMission(doc)`: stores the raw parameters (the count is not
validated or clamped), copies `min(total, 20)` waypoints into the
array clearing `reached`, sets the active flag, `currentWaypointIndex
= 0` and `LOADED`, emits the confirmation, and if the count is
positive switches to `NAVIGATING` and emits `navigation_started` for
waypoint 0. -/
noncomputable def loadMission (spec : MissionSpec) (s : ControllerState) :
    ControllerState × List Ev :=
  let total := spec.totalWaypoints
  let loadCount := (min total 20).toNat
  let newWaypoints : Fin 20 → Waypoint := fun j =>
    if (j : Int) < total then loadWaypoint (spec.waypoints.getD j nullWaypointSpec)
    else s.waypoints j
  let s1 : ControllerState :=
    { s with
        totalWaypoints := total
        maxSpeed := spec.maxSpeed
        maxAltitude := spec.maxAltitude
        enableReturnToHome := spec.returnToHome
        missionId := spec.createdAt
        waypoints := newWaypoints
        missionActive := true
        currentWaypointIndex := 0
        missionState := if 0 < total then MissionState.NAVIGATING else MissionState.LOADED }
  let evs := Ev.log "Mission Loading" ::
    ((List.range loadCount).map (fun _ => Ev.log "WP") ++
     [Ev.log "Mission summary",
      Ev.missionConfirmation spec.createdAt total "mission_loaded"] ++
     (if 0 < total then
       [Ev.log "Navigation started",
        Ev.navStarted spec.createdAt 0 (newWaypoints 0).name (newWaypoints 0).lat
          (newWaypoints 0).lng]
      else []))
  (s1, evs)

/-- `processCommand`: `none` models a line `deserializeJson` rejects
(the function returns with no output); an action matching no branch
also falls through silently. -/
noncomputable def processCommand : Option Cmd → ControllerState → ControllerState × List Ev
  | none, s => (s, [])
  | some (Cmd.startMission spec), s => loadMission spec s
  | some Cmd.getStatus, s =>
      (s, [Ev.missionStatus s.missionActive s.missionState s.currentWaypointIndex
            s.totalWaypoints])
  | some Cmd.emergencyStop, s =>
      let s1 := { s with missionActive := false, missionState := MissionState.WAITING }
      let r := resetMission s1
      (r.1, Ev.log "EMERGENCY STOP" :: r.2)
  | some Cmd.returnHome, s =>
      if s.missionActive then
        ({ s with missionState := MissionState.COMPLETE },
         [Ev.log "Return to Home", Ev.returningHome none])
      else (s, [])
  | some (Cmd.unknown _), s => (s, [])

open Classical in
/-- `checkWaypoint()`: guard, haversine distance to the target, and on
`dist <= 5 && !reached` mark it reached, emit `waypoint_reached`,
increment the index, then either emit `navigating_to` or invoke
`completeMission()`. -/
noncomputable def checkWaypoint (lat lng : ℝ) (s : ControllerState) :
    ControllerState × List Ev :=
  if s.missionState ≠ MissionState.NAVIGATING ∨ s.currentWaypointIndex < 0 ∨
      s.totalWaypoints ≤ s.currentWaypointIndex then (s, [])
  else
    let i := s.currentWaypointIndex
    let wp := wpAt s.waypoints i
    let dist := calculateDistance lat lng wp.lat wp.lng
    if dist ≤ waypointReachedDistance ∧ wp.reached = false then
      let wps1 : Fin 20 → Waypoint := fun j =>
        if (j : Int) = i then { wp with reached := true } else s.waypoints j
      let s1 := { s with waypoints := wps1, currentWaypointIndex := i + 1 }
      let evs1 := [Ev.log "Waypoint reached",
        Ev.waypointReached s.missionId i wp.name dist lat lng]
      if i + 1 < s.totalWaypoints then
        let nwp := wpAt wps1 (i + 1)
        (s1, evs1 ++ [Ev.log "Next target",
          Ev.navigatingTo s.missionId (i + 1) nwp.name nwp.lat nwp.lng])
      else
        let r := completeMission s1
        (r.1, evs1 ++ r.2)
    else (s, [])

/-- One mission-logic iteration of `loop()`: `checkWaypoint` runs only
while `NAVIGATING` with a valid fix. -/
noncomputable def tick (f : GpsFix) (s : ControllerState) : ControllerState × List Ev :=
  if s.missionState = MissionState.NAVIGATING ∧ f.valid = true then
    checkWaypoint f.lat f.lng s
  else (s, [])

/-- One input consumed by the controller loop: a received serial line
(parsed or rejected) or a GPS fix cycle. -/
inductive Inp where
  | line (c : Option Cmd)
  | tick (f : GpsFix)

/-- Dispatch one input. -/
noncomputable def step (s : ControllerState) : Inp → ControllerState × List Ev
  | Inp.line c => processCommand c s
  | Inp.tick f => tick f s

/-- Run a sequence of inputs, collecting all emitted output. -/
noncomputable def runAll (s : ControllerState) : List Inp → ControllerState × List Ev
  | [] => (s, [])
  | i :: rest =>
      let r1 := step s i
      let r2 := runAll r1.1 rest
      (r2.1, r1.2 ++ r2.2)

/-- A controller state reachable from power-on by some input sequence. -/
def Reachable (s : ControllerState) : Prop :=
  ∃ l, (runAll initialState l).1 = s

/-- Does an input carry a `start_mission` command? -/
def Inp.isStartMission : Inp → Bool
  | Inp.line (some (Cmd.startMission _)) => true
  | _ => false

/-- Is an output event a `waypoint_reached` navigation update? -/
def Ev.isWaypointReachedEv : Ev → Bool
  | Ev.waypointReached _ _ _ _ _ _ => true
  | _ => false

/-!
Line framer of the operator side (`readSerialData`): the received
chunk is appended to `serialBuffer`, the buffer is split on the
newline terminator, the last (unterminated) part is kept back in the
buffer and the complete lines are handed on.  JS strings are modelled
as `List Char`.
-/

/-- `buffer.split(newline)` on JS strings: every maximal
newline-free run, including the empty runs between adjacent
terminators, in order. -/
def splitNl : List Char → List (List Char)
  | [] => [[]]
  | c :: cs =>
      if c = '\n' then [] :: splitNl cs
      else
        match splitNl cs with
        | [] => [[c]]
        | l :: ls => (c :: l) :: ls

/-- One `readSerialData` loop iteration on a received chunk: returns
(complete lines handed to `processReceivedData`, new buffer
content) — `lines.pop()` keeps the trailing segment back. -/
def feedChunk (buf chunk : List Char) : List (List Char) × List Char :=
  let parts := splitNl (buf ++ chunk)
  (parts.dropLast, parts.getLastD [])

/-- Feed a sequence of chunks through the framer, collecting the
complete lines in order. -/
def feedAll (buf : List Char) : List (List Char) → List (List Char) × List Char
  | [] => ([], buf)
  | c :: cs =>
      let r1 := feedChunk buf c
      let r2 := feedAll r1.2 cs
      (r1.1 ++ r2.1, r2.2)

/-!
Operator-side connection loss handling (`handleConnectionLoss`,
`disconnectDevice` / `disconnectFromESP32`, the catch block of
`readSerialData`, and the health-check interval of
`initializeConnectionMonitoring` / `monitorConnectionHealth`).
A `setTimeout(connectImmediately, 1000)` call is modelled by
appending the delay to a list of outstanding scheduled reconnect
callbacks.
-/

/-- Operator-side link state: the `isConnected` flag, the
`autoConnect` preference, the delays (ms) of the scheduled
reconnect callbacks still outstanding, and the log. -/
structure ConnState where
  isConnected : Bool
  autoConnect : Bool
  pendingReconnects : List Nat
  log : List String

/-- `handleConnectionLoss()`: bail out if the connected flag is
already cleared; otherwise log, and schedule `connectImmediately`
after a fixed 1000 ms backoff. -/
def handleConnectionLoss (c : ConnState) : ConnState :=
  if c.isConnected = false then c
  else
    { c with
        log := c.log ++ ["Connection lost - attempting to reconnect..."]
        pendingReconnects := c.pendingReconnects ++ [1000] }

/-- `disconnectDevice()` teardown as it affects the link flags: the
connected flag is cleared first, then resources are released and a
log line written. -/
def disconnectDevice (c : ConnState) : ConnState :=
  { c with isConnected := false, log := c.log ++ ["disconnected"] }

/-- The catch block of `readSerialData`, guarded by `isConnected`:
log the error, then either take the signal-noise auto-recovery branch
(`errorMessage` contains Framing / Parity / Overrun, abstracted as
`signalNoise`): warn, tear down, and schedule `connectImmediately`
after 1000 ms directly; or, for every other error, log again, tear
down, and (with auto-connect on) call `handleConnectionLoss`.  (The
second noise test in the source is dead code: the first one
returned.) -/
def readSerialDataFailure (signalNoise : Bool) (c : ConnState) : ConnState :=
  if c.isConnected = true then
    let c1 := { c with log := c.log ++ ["Serial read error"] }
    if signalNoise = true then
      let c2 := { c1 with log := c1.log ++ ["Signal noise detected. Reconnecting..."] }
      let c3 := disconnectDevice c2
      { c3 with pendingReconnects := c3.pendingReconnects ++ [1000] }
    else
      let c2 := { c1 with log := c1.log ++ ["Serial read error"] }
      let c3 := disconnectDevice c2
      if c3.autoConnect = true then handleConnectionLoss c3 else c3
  else c

/-- One firing of the 5-second health-check interval; `telemetryStale`
abstracts `lastTelemetryTime > 0 && now - lastTelemetryTime >
connectionTimeoutMs` (10-second window). -/
def monitorConnectionHealth (telemetryStale : Bool) (c : ConnState) : ConnState :=
  if c.isConnected = true ∧ telemetryStale = true then
    let c1 := { c with log := c.log ++ ["No data received - connection may be lost"] }
    if c1.autoConnect then handleConnectionLoss c1 else c1
  else c

/-- A healthy connected operator state with no reconnect scheduled. -/
def connectedIdle : ConnState :=
  { isConnected := true, autoConnect := true, pendingReconnects := [], log := [] }

/-- A `start_mission` payload with zero waypoints. -/
def spec0 : MissionSpec :=
  { totalWaypoints := 0, maxSpeed := 0, maxAltitude := 0, returnToHome := false
    createdAt := "m0", waypoints := [] }

/-- A `start_mission` payload whose declared count exceeds the fixed
capacity of 20. -/
def spec25 : MissionSpec :=
  { totalWaypoints := 25, maxSpeed := 0, maxAltitude := 0, returnToHome := false
    createdAt := "m25", waypoints := [] }

/-- A well-formed two-waypoint `start_mission` payload. -/
noncomputable def spec2 : MissionSpec :=
  { totalWaypoints := 2, maxSpeed := 12, maxAltitude := 3, returnToHome := false
    createdAt := "m2"
    waypoints :=
      [{ name := some "W1", latitude := some 10, longitude := some 10, altitude := some 5 },
       { name := some "W2", latitude := some 11, longitude := some 11, altitude := some 5 }] }

/-- A target waypoint at latitude 10, longitude 10, not yet reached. -/
noncomputable def wp10 : Waypoint :=
  { name := "W1", lat := 10, lng := 10, alt := 5, reached := false }

/-- A controller navigating a one-waypoint mission towards `wp10`. -/
noncomputable def navState1 : ControllerState :=
  { missionActive := true
    currentWaypointIndex := 0
    totalWaypoints := 1
    maxSpeed := 12
    maxAltitude := 3
    enableReturnToHome := false
    missionId := "m1"
    missionState := MissionState.NAVIGATING
    waypoints := fun j => if j = 0 then wp10 else emptyWaypoint }

/-- Like `navState1` but with the target waypoint already reached. -/
noncomputable def navState1r : ControllerState :=
  { navState1 with
      waypoints := fun j => if j = 0 then { wp10 with reached := true } else emptyWaypoint }

/-- A valid GPS fix exactly at `wp10`. -/
noncomputable def fix10 : GpsFix := { lat := 10, lng := 10, valid := true }

/-- The mission-index invariant the reachable controller states
actually satisfy: in-range index while `NAVIGATING`; `-1` (and no
active mission) while `WAITING`; a rest state of `LOADED` with index
0 only for non-positive counts; `COMPLETE` (reachable only through
`return_home`) keeps the index of the aborted mission. -/
def MissionInv (s : ControllerState) : Prop :=
  (s.missionState = MissionState.NAVIGATING →
    0 ≤ s.currentWaypointIndex ∧ s.currentWaypointIndex < s.totalWaypoints) ∧
  (s.missionState = MissionState.WAITING →
    s.currentWaypointIndex = -1 ∧ s.missionActive = false) ∧
  (s.missionState = MissionState.LOADED →
    s.currentWaypointIndex = 0 ∧ s.totalWaypoints ≤ 0) ∧
  (s.missionState = MissionState.COMPLETE →
    0 ≤ s.currentWaypointIndex ∧
      (s.currentWaypointIndex < s.totalWaypoints ∨ s.totalWaypoints ≤ 0))

/-! ### Theorems -/

/-- Claim C1 counterexample: a `start_mission` specification with zero
waypoints is not rejected — `loadMission` mutates the mission state
(to `LOADED`, active, index 0) instead of leaving it unchanged and
returning a validation error. -/
theorem loadMission_accepts_zero_waypoints :
    (processCommand (some (Cmd.startMission spec0)) initialState).1.missionState =
        MissionState.LOADED ∧
    (processCommand (some (Cmd.startMission spec0)) initialState).1.missionActive = true ∧
    (processCommand (some (Cmd.startMission spec0)) initialState).1.currentWaypointIndex = 0 ∧
    initialState.missionState = MissionState.WAITING ∧
    initialState.missionActive = false :=
  ⟨rfl, rfl, rfl, rfl, rfl⟩

/-- Claim C1 amended: `loadMission` performs no validation at all: every
`start_mission` specification (zero waypoints, oversized counts,
missing coordinates — which parse as 0) is accepted; it stores the raw
count, sets the active flag and `current_index = 0`, and the state
becomes `NAVIGATING` when the count is positive, else rests at
`LOADED`. -/
theorem loadMission_no_validation (spec : MissionSpec) (s : ControllerState) :
    (processCommand (some (Cmd.startMission spec)) s).1.missionActive = true ∧
    (processCommand (some (Cmd.startMission spec)) s).1.currentWaypointIndex = 0 ∧
    (processCommand (some (Cmd.startMission spec)) s).1.totalWaypoints = spec.totalWaypoints ∧
    (processCommand (some (Cmd.startMission spec)) s).1.missionState =
      (if 0 < spec.totalWaypoints then MissionState.NAVIGATING else MissionState.LOADED) :=
  ⟨rfl, rfl, rfl, rfl⟩

/-- Claim C5 counterexample: after a `start_mission` command declaring 25
waypoints, the reachable controller state stores `totalWaypoints =
25`, exceeding the claimed bound of 20. -/
theorem total_exceeds_capacity :
    20 < (runAll initialState [Inp.line (some (Cmd.startMission spec25))]).1.totalWaypoints := by
  have h : (runAll initialState [Inp.line (some (Cmd.startMission spec25))]).1.totalWaypoints
      = 25 := rfl
  rw [h]
  decide

/-- Claim C5 amended: `loadMission` writes at most 20 waypoint slots (the
copy loop is capped by the array bound), but the stored total is the
raw requested count, which can exceed 20. -/
theorem stored_total_unclamped (spec : MissionSpec) (s : ControllerState) :
    (loadMission spec s).1.totalWaypoints = spec.totalWaypoints ∧
    ∀ j : Fin 20, (loadMission spec s).1.waypoints j =
      (if (j : Int) < spec.totalWaypoints then
        loadWaypoint (spec.waypoints.getD j nullWaypointSpec)
       else s.waypoints j) :=
  ⟨rfl, fun _ => rfl⟩

/-- Claim C9 counterexample: a malformed (unparseable) command line and an
unrecognized command action are both dropped with no state change, no
log line and no event — the controller fails silently. -/
theorem malformed_command_silent :
    processCommand none initialState = (initialState, []) ∧
    processCommand (some (Cmd.unknown "foo")) initialState = (initialState, []) :=
  ⟨rfl, rfl⟩

/-- Claim C9 amended: a line `deserializeJson` rejects and a command whose
action matches no branch are both ignored silently: no state
mutation and no output of any kind (the firmware never emits
`command_error` or `unknown_command`). -/
theorem silent_command_drop (s : ControllerState) (a : String) :
    processCommand none s = (s, []) ∧
    processCommand (some (Cmd.unknown a)) s = (s, []) :=
  ⟨rfl, rfl⟩

/-- Claim C6 counterexample: after starting a two-waypoint mission and then
issuing `return_home`, the mission is still active, the waypoint data
is still stored and the state is `COMPLETE` — nothing was destroyed
or reset. -/
theorem returnHome_leaves_active :
    (runAll initialState
      [Inp.line (some (Cmd.startMission spec2)),
       Inp.line (some Cmd.returnHome)]).1.missionActive = true ∧
    (runAll initialState
      [Inp.line (some (Cmd.startMission spec2)),
       Inp.line (some Cmd.returnHome)]).1.totalWaypoints = 2 ∧
    (runAll initialState
      [Inp.line (some (Cmd.startMission spec2)),
       Inp.line (some Cmd.returnHome)]).1.missionState = MissionState.COMPLETE :=
  ⟨rfl, rfl, rfl⟩

/-- Claim C6 amended: `return_home` while a mission is active sets
`state = COMPLETE` and emits `returning_home`, but performs no reset:
the active flag, waypoints, count and index are all retained; while
no mission is active it changes nothing and emits nothing. -/
theorem returnHome_no_reset (s : ControllerState) :
    (s.missionActive = true →
      processCommand (some Cmd.returnHome) s =
        ({ s with missionState := MissionState.COMPLETE },
         [Ev.log "Return to Home", Ev.returningHome none])) ∧
    (s.missionActive = false →
      processCommand (some Cmd.returnHome) s = (s, [])) := by
  constructor
  · intro h
    simp only [processCommand, h, if_pos]
  · intro h
    simp only [processCommand, h, Bool.false_eq_true, if_false]

/-- Witness for C6 at concrete states: `return_home` in the idle
initial state is a no-op. -/
theorem returnHome_no_reset_witness :
    processCommand (some Cmd.returnHome) initialState = (initialState, []) :=
  (returnHome_no_reset initialState).2 rfl

/-- Claim C8 counterexample: a read failure of the ordinary (non
signal-noise) class while connected schedules no reconnect attempt at
all (the teardown clears the connected flag before
`handleConnectionLoss` runs its guard), while two health-check
timeout signals arriving while still connected each schedule an
attempt, leaving two outstanding — so neither "exactly one attempt
per loss event" nor the single-flight guard holds. -/
theorem reconnect_not_single_flight :
    (readSerialDataFailure false connectedIdle).pendingReconnects = [] ∧
    (monitorConnectionHealth true (monitorConnectionHealth true connectedIdle)).pendingReconnects
      = [1000, 1000] :=
  ⟨rfl, rfl⟩

/-- Claim C8 amended: `handleConnectionLoss` schedules one reconnect after
the fixed 1000 ms backoff only when the connected flag is still set
(and is a no-op otherwise).  A read failure while connected schedules
exactly one attempt when it is of the signal-noise class (that branch
calls `setTimeout(connectImmediately, 1000)` directly after the
teardown) and none otherwise (the teardown clears the flag before the
guard runs); while disconnected the whole catch body is skipped.
Each health-check timeout while still connected schedules one more
attempt, with nothing preventing several outstanding attempts. -/
theorem reconnect_scheduling (c : ConnState) :
    (c.isConnected = true →
      (handleConnectionLoss c).pendingReconnects = c.pendingReconnects ++ [1000]) ∧
    (c.isConnected = false → handleConnectionLoss c = c) ∧
    (c.isConnected = true →
      (readSerialDataFailure true c).pendingReconnects = c.pendingReconnects ++ [1000]) ∧
    (c.isConnected = true →
      (readSerialDataFailure false c).pendingReconnects = c.pendingReconnects) ∧
    (c.isConnected = false →
      readSerialDataFailure true c = c ∧ readSerialDataFailure false c = c) ∧
    (c.isConnected = true → c.autoConnect = true →
      (monitorConnectionHealth true c).pendingReconnects = c.pendingReconnects ++ [1000]) := by
  refine ⟨fun h => ?_, fun h => ?_, fun h => ?_, fun h => ?_, fun h => ⟨?_, ?_⟩, fun h ha => ?_⟩
  · simp [handleConnectionLoss, h]
  · simp [handleConnectionLoss, h]
  · simp [readSerialDataFailure, disconnectDevice, h]
  · simp [readSerialDataFailure, disconnectDevice, handleConnectionLoss, h]
  · simp [readSerialDataFailure, h]
  · simp [readSerialDataFailure, h]
  · simp [monitorConnectionHealth, handleConnectionLoss, h, ha]

/-- Witness for C8 at the concrete connected state: one loss signal
while connected schedules exactly one 1000 ms reconnect. -/
theorem reconnect_scheduling_witness :
    (handleConnectionLoss connectedIdle).pendingReconnects =
      connectedIdle.pendingReconnects ++ [1000] :=
  (reconnect_scheduling connectedIdle).1 rfl

/-- `atan2(0, 1) = 0` (the value reached by the haversine at zero
separation). -/
theorem atan2_zero_one : atan2 0 1 = 0 := by
  simp [atan2]

/-- The haversine distance from a point to itself is zero. -/
theorem calculateDistance_self (lat lng : ℝ) : calculateDistance lat lng lat lng = 0 := by
  unfold calculateDistance
  simp [sub_self, atan2_zero_one]

/-- The initial controller state satisfies the mission-index invariant. -/
theorem missionInv_initial : MissionInv initialState := by
  refine ⟨fun h => ?_, fun _ => ⟨rfl, rfl⟩, fun h => ?_, fun h => ?_⟩ <;>
    simp [initialState] at h

/-- Every single controller step preserves the mission-index
invariant. -/
theorem missionInv_step (s : ControllerState) (i : Inp) (h : MissionInv s) :
    MissionInv (step s i).1 := by
  obtain ⟨hN, hW, hL, hC⟩ := h
  cases i with
  | line c =>
    cases c with
    | none => exact ⟨hN, hW, hL, hC⟩
    | some cmd =>
      cases cmd with
      | startMission spec =>
        simp only [step, processCommand, loadMission, MissionInv]
        by_cases hp : 0 < spec.totalWaypoints
        · simp [hp]
        · simp [hp]
          omega
      | getStatus => exact ⟨hN, hW, hL, hC⟩
      | emergencyStop =>
        simp [step, processCommand, resetMission, MissionInv]
      | returnHome =>
        simp only [step, processCommand]
        by_cases ha : s.missionActive = true
        · simp only [ha, if_pos]
          refine ⟨fun hx => absurd hx (by simp), fun hx => absurd hx (by simp),
            fun hx => absurd hx (by simp), fun _ => ?_⟩
          cases hs : s.missionState with
          | WAITING => exact absurd (hW hs).2 (by simp [ha])
          | LOADED => exact ⟨le_of_eq (hL hs).1.symm, Or.inr (hL hs).2⟩
          | NAVIGATING => exact ⟨(hN hs).1, Or.inl (hN hs).2⟩
          | COMPLETE => exact hC hs
        · simp only [Bool.not_eq_true] at ha
          simp only [ha, Bool.false_eq_true, if_false]
          exact ⟨hN, hW, hL, hC⟩
      | unknown a => exact ⟨hN, hW, hL, hC⟩
  | tick f =>
    simp only [step, tick]
    by_cases hc : s.missionState = MissionState.NAVIGATING ∧ f.valid = true
    · rw [if_pos hc]
      simp only [checkWaypoint]
      by_cases hg : s.missionState ≠ MissionState.NAVIGATING ∨ s.currentWaypointIndex < 0 ∨
          s.totalWaypoints ≤ s.currentWaypointIndex
      · rw [if_pos hg]; exact ⟨hN, hW, hL, hC⟩
      · rw [if_neg hg]
        push_neg at hg
        by_cases hd : calculateDistance f.lat f.lng
            (wpAt s.waypoints s.currentWaypointIndex).lat
            (wpAt s.waypoints s.currentWaypointIndex).lng ≤ waypointReachedDistance ∧
            (wpAt s.waypoints s.currentWaypointIndex).reached = false
        · rw [if_pos hd]
          by_cases hlt : s.currentWaypointIndex + 1 < s.totalWaypoints
          · rw [if_pos hlt]
            refine ⟨fun _ => ⟨?_, hlt⟩, fun hx => ?_, fun hx => ?_, fun hx => ?_⟩
            · show (0 : Int) ≤ s.currentWaypointIndex + 1
              omega
            · exact absurd (hc.1.symm.trans hx) (by decide)
            · exact absurd (hc.1.symm.trans hx) (by decide)
            · exact absurd (hc.1.symm.trans hx) (by decide)
          · rw [if_neg hlt]
            simp [MissionInv, completeMission, resetMission]
        · rw [if_neg hd]
          exact ⟨hN, hW, hL, hC⟩
    · rw [if_neg hc]
      exact ⟨hN, hW, hL, hC⟩

/-- Running any input sequence preserves the mission-index invariant. -/
theorem missionInv_run (l : List Inp) (s : ControllerState) (h : MissionInv s) :
    MissionInv (runAll s l).1 := by
  induction l generalizing s with
  | nil => exact h
  | cons i rest ih =>
    simp only [runAll]
    exact ih _ (missionInv_step s i h)

/-- Claim C4 counterexample: the state reached by a single zero-waypoint
`start_mission` command is `LOADED` with `current_index = 0`, not
`-1` as the claimed invariant requires for every non-`NAVIGATING`
state. -/
theorem reachable_loaded_index_zero :
    (runAll initialState [Inp.line (some (Cmd.startMission spec0))]).1.missionState =
        MissionState.LOADED ∧
    (runAll initialState [Inp.line (some (Cmd.startMission spec0))]).1.currentWaypointIndex
        = 0 :=
  ⟨rfl, rfl⟩

/-- Claim C4 amended: in every reachable state, `current_index ∈ [0, total)`
holds while `NAVIGATING` and `current_index = -1` holds while `WAITING`
(idle); but a zero-count `start_mission` rests at `LOADED` with
`current_index = 0`, and `return_home` leaves `COMPLETE` with the
aborted mission's index (non-negative, in range unless the count was
non-positive). -/
theorem mission_index_invariant (s : ControllerState) (h : Reachable s) : MissionInv s := by
  obtain ⟨l, rfl⟩ := h
  exact missionInv_run l initialState missionInv_initial

/-- Witness for C4 at the concrete empty run: the initial state is
reachable and satisfies the invariant. -/
theorem mission_index_invariant_witness : MissionInv initialState :=
  mission_index_invariant initialState ⟨[], rfl⟩

/-- Reading `waypoints[j]` after writing slot `i` is unchanged for
`j ≠ i`. -/
theorem wpAt_write_other (w : Fin 20 → Waypoint) (x : Waypoint) (i j : Int) (hj : j ≠ i) :
    wpAt (fun k => if (k : Int) = i then x else w k) j = wpAt w j := by
  unfold wpAt
  by_cases hb : 0 ≤ j ∧ j < 20
  · rw [dif_pos hb, dif_pos hb]
    have hne : ¬((⟨j.toNat, by omega⟩ : Fin 20) : Int) = i := by
      intro hcontra
      apply hj
      rw [← hcontra]
      simp [Int.toNat_of_nonneg hb.1]
    exact if_neg hne
  · rw [dif_neg hb, dif_neg hb]

/-- Claim C2: on a tick while `NAVIGATING` on a valid fix with the target
index in range, the controller compares the haversine distance
(`calculateDistance`, Earth radius 6371000 m) from the fix to the
target waypoint against the 5 m threshold: the index never decreases
while the mission keeps navigating; if the distance exceeds the
threshold (or the target was already reached) nothing changes and
nothing is emitted; otherwise the target is marked reached,
`waypoint_reached` is emitted with the measured distance as accuracy
and the fix coordinates, the index is incremented exactly once, and
then either `navigating_to` is emitted for the new target or
`completeMission` is invoked. -/
theorem tick_waypoint_advance (s : ControllerState) (f : GpsFix)
    (hnav : s.missionState = MissionState.NAVIGATING)
    (hv : f.valid = true)
    (hlo : 0 ≤ s.currentWaypointIndex)
    (hhi : s.currentWaypointIndex < s.totalWaypoints) :
    ((tick f s).1.missionState = MissionState.NAVIGATING →
      s.currentWaypointIndex ≤ (tick f s).1.currentWaypointIndex) ∧
    (¬(calculateDistance f.lat f.lng (wpAt s.waypoints s.currentWaypointIndex).lat
          (wpAt s.waypoints s.currentWaypointIndex).lng ≤ waypointReachedDistance ∧
        (wpAt s.waypoints s.currentWaypointIndex).reached = false) →
      tick f s = (s, [])) ∧
    ((calculateDistance f.lat f.lng (wpAt s.waypoints s.currentWaypointIndex).lat
          (wpAt s.waypoints s.currentWaypointIndex).lng ≤ waypointReachedDistance ∧
        (wpAt s.waypoints s.currentWaypointIndex).reached = false) →
      (s.currentWaypointIndex + 1 < s.totalWaypoints →
        tick f s =
          ({ s with
              waypoints := fun j =>
                if (j : Int) = s.currentWaypointIndex then
                  { wpAt s.waypoints s.currentWaypointIndex with reached := true }
                else s.waypoints j
              currentWaypointIndex := s.currentWaypointIndex + 1 },
           [Ev.log "Waypoint reached",
            Ev.waypointReached s.missionId s.currentWaypointIndex
              (wpAt s.waypoints s.currentWaypointIndex).name
              (calculateDistance f.lat f.lng (wpAt s.waypoints s.currentWaypointIndex).lat
                (wpAt s.waypoints s.currentWaypointIndex).lng) f.lat f.lng,
            Ev.log "Next target",
            Ev.navigatingTo s.missionId (s.currentWaypointIndex + 1)
              (wpAt s.waypoints (s.currentWaypointIndex + 1)).name
              (wpAt s.waypoints (s.currentWaypointIndex + 1)).lat
              (wpAt s.waypoints (s.currentWaypointIndex + 1)).lng])) ∧
      (s.totalWaypoints ≤ s.currentWaypointIndex + 1 →
        tick f s =
          ((completeMission
             { s with
                waypoints := fun j =>
                  if (j : Int) = s.currentWaypointIndex then
                    { wpAt s.waypoints s.currentWaypointIndex with reached := true }
                  else s.waypoints j
                currentWaypointIndex := s.currentWaypointIndex + 1 }).1,
           [Ev.log "Waypoint reached",
            Ev.waypointReached s.missionId s.currentWaypointIndex
              (wpAt s.waypoints s.currentWaypointIndex).name
              (calculateDistance f.lat f.lng (wpAt s.waypoints s.currentWaypointIndex).lat
                (wpAt s.waypoints s.currentWaypointIndex).lng) f.lat f.lng] ++
           (completeMission
             { s with
                waypoints := fun j =>
                  if (j : Int) = s.currentWaypointIndex then
                    { wpAt s.waypoints s.currentWaypointIndex with reached := true }
                  else s.waypoints j
                currentWaypointIndex := s.currentWaypointIndex + 1 }).2))) := by
  have hguard : ¬(s.missionState ≠ MissionState.NAVIGATING ∨ s.currentWaypointIndex < 0 ∨
      s.totalWaypoints ≤ s.currentWaypointIndex) := by
    push_neg
    exact ⟨hnav, hlo, hhi⟩
  have htick : tick f s = checkWaypoint f.lat f.lng s := by
    unfold tick
    rw [if_pos ⟨hnav, hv⟩]
  by_cases hd : calculateDistance f.lat f.lng (wpAt s.waypoints s.currentWaypointIndex).lat
      (wpAt s.waypoints s.currentWaypointIndex).lng ≤ waypointReachedDistance ∧
      (wpAt s.waypoints s.currentWaypointIndex).reached = false
  · by_cases hlt : s.currentWaypointIndex + 1 < s.totalWaypoints
    · have hck : tick f s =
          ({ s with
              waypoints := fun j =>
                if (j : Int) = s.currentWaypointIndex then
                  { wpAt s.waypoints s.currentWaypointIndex with reached := true }
                else s.waypoints j
              currentWaypointIndex := s.currentWaypointIndex + 1 },
           [Ev.log "Waypoint reached",
            Ev.waypointReached s.missionId s.currentWaypointIndex
              (wpAt s.waypoints s.currentWaypointIndex).name
              (calculateDistance f.lat f.lng (wpAt s.waypoints s.currentWaypointIndex).lat
                (wpAt s.waypoints s.currentWaypointIndex).lng) f.lat f.lng,
            Ev.log "Next target",
            Ev.navigatingTo s.missionId (s.currentWaypointIndex + 1)
              (wpAt s.waypoints (s.currentWaypointIndex + 1)).name
              (wpAt s.waypoints (s.currentWaypointIndex + 1)).lat
              (wpAt s.waypoints (s.currentWaypointIndex + 1)).lng]) := by
        rw [htick]
        simp only [checkWaypoint]
        rw [if_neg hguard, if_pos hd, if_pos hlt]
        rw [wpAt_write_other s.waypoints _ s.currentWaypointIndex (s.currentWaypointIndex + 1)
          (by omega)]
        rfl
      refine ⟨fun _ => ?_, fun hnd => absurd hd hnd,
        fun _ => ⟨fun _ => hck, fun htot => absurd htot (by omega)⟩⟩
      rw [hck]
      show s.currentWaypointIndex ≤ s.currentWaypointIndex + 1
      omega
    · have hck : tick f s =
          ((completeMission
             { s with
                waypoints := fun j =>
                  if (j : Int) = s.currentWaypointIndex then
                    { wpAt s.waypoints s.currentWaypointIndex with reached := true }
                  else s.waypoints j
                currentWaypointIndex := s.currentWaypointIndex + 1 }).1,
           [Ev.log "Waypoint reached",
            Ev.waypointReached s.missionId s.currentWaypointIndex
              (wpAt s.waypoints s.currentWaypointIndex).name
              (calculateDistance f.lat f.lng (wpAt s.waypoints s.currentWaypointIndex).lat
                (wpAt s.waypoints s.currentWaypointIndex).lng) f.lat f.lng] ++
           (completeMission
             { s with
                waypoints := fun j =>
                  if (j : Int) = s.currentWaypointIndex then
                    { wpAt s.waypoints s.currentWaypointIndex with reached := true }
                  else s.waypoints j
                currentWaypointIndex := s.currentWaypointIndex + 1 }).2) := by
        rw [htick]
        simp only [checkWaypoint]
        rw [if_neg hguard, if_pos hd, if_neg hlt]
      refine ⟨fun hpost => ?_, fun hnd => absurd hd hnd,
        fun _ => ⟨fun hlt2 => absurd hlt2 hlt, fun _ => hck⟩⟩
      rw [hck] at hpost
      simp [completeMission, resetMission] at hpost
  · have hck : tick f s = (s, []) := by
      rw [htick]
      simp only [checkWaypoint]
      rw [if_neg hguard, if_neg hd]
    refine ⟨fun _ => ?_, fun _ => hck, fun hdd => absurd hdd hd⟩
    rw [hck]

/-- Witness for C2 at a concrete navigating state whose target is
already marked reached: the tick changes nothing and emits nothing. -/
theorem tick_waypoint_advance_witness :
    tick fix10 navState1r = (navState1r, []) :=
  (tick_waypoint_advance navState1r fix10 rfl rfl (by decide) (by decide)).2.1
    (fun h => absurd h.2 (by decide))

/-- After a mission has been torn down (inactive, not navigating), any
single input other than `start_mission` keeps it torn down and emits
no `waypoint_reached` event. -/
theorem quiet_step (s : ControllerState) (i : Inp)
    (hA : s.missionActive = false) (hS : s.missionState ≠ MissionState.NAVIGATING)
    (hns : i.isStartMission = false) :
    (step s i).1.missionActive = false ∧
    (step s i).1.missionState ≠ MissionState.NAVIGATING ∧
    ∀ e ∈ (step s i).2, e.isWaypointReachedEv = false := by
  cases i with
  | line c =>
    cases c with
    | none => exact ⟨hA, hS, by simp [step, processCommand]⟩
    | some cmd =>
      cases cmd with
      | startMission spec => simp [Inp.isStartMission] at hns
      | getStatus =>
        exact ⟨hA, hS, by simp [step, processCommand, Ev.isWaypointReachedEv]⟩
      | emergencyStop =>
        refine ⟨?_, ?_, ?_⟩ <;>
          simp [step, processCommand, resetMission, Ev.isWaypointReachedEv]
      | returnHome =>
        have hq : step s (Inp.line (some Cmd.returnHome)) = (s, []) := by
          simp [step, processCommand, hA]
        rw [hq]
        exact ⟨hA, hS, by simp⟩
      | unknown a => exact ⟨hA, hS, by simp [step, processCommand]⟩
  | tick f =>
    have hq : step s (Inp.tick f) = (s, []) := by
      simp only [step, tick]
      rw [if_neg (fun hcc => hS hcc.1)]
    rw [hq]
    exact ⟨hA, hS, by simp⟩

/-- After a mission has been torn down, no input sequence free of
`start_mission` commands can ever produce a `waypoint_reached`
event. -/
theorem quiet_run (l : List Inp) (s : ControllerState)
    (hA : s.missionActive = false) (hS : s.missionState ≠ MissionState.NAVIGATING)
    (hns : ∀ i ∈ l, i.isStartMission = false) :
    ∀ e ∈ (runAll s l).2, e.isWaypointReachedEv = false := by
  induction l generalizing s with
  | nil => simp [runAll]
  | cons i rest ih =>
    have hq := quiet_step s i hA hS (hns i (by simp))
    intro e he
    have he' : e ∈ (step s i).2 ++ (runAll (step s i).1 rest).2 := he
    rw [List.mem_append] at he'
    rcases he' with h | h
    · exact hq.2.2 e h
    · exact ih (step s i).1 hq.1 hq.2.1 (fun j hj => hns j (List.mem_cons_of_mem i hj)) e h

/-- Claim C3: a tick that reaches the last waypoint (in-range target,
distance within threshold, not yet reached, no waypoint after it)
emits `waypoint_reached` for it and then exactly one of
`returning_home` / `mission_complete` — the former precisely when
`return_to_home` was requested — followed by the reset log; the
resulting state is fully reset (`WAITING`, index `-1`, inactive, id
cleared, count zero, all waypoint slots cleared), and no input
sequence free of `start_mission` can ever produce another
`waypoint_reached` event. -/
theorem lastWaypoint_completion (s : ControllerState) (f : GpsFix)
    (hnav : s.missionState = MissionState.NAVIGATING)
    (hv : f.valid = true)
    (hlo : 0 ≤ s.currentWaypointIndex)
    (hhi : s.currentWaypointIndex < s.totalWaypoints)
    (hlast : s.totalWaypoints ≤ s.currentWaypointIndex + 1)
    (hd : calculateDistance f.lat f.lng (wpAt s.waypoints s.currentWaypointIndex).lat
        (wpAt s.waypoints s.currentWaypointIndex).lng ≤ waypointReachedDistance)
    (hr : (wpAt s.waypoints s.currentWaypointIndex).reached = false) :
    (tick f s).2 =
      [Ev.log "Waypoint reached",
       Ev.waypointReached s.missionId s.currentWaypointIndex
         (wpAt s.waypoints s.currentWaypointIndex).name
         (calculateDistance f.lat f.lng (wpAt s.waypoints s.currentWaypointIndex).lat
           (wpAt s.waypoints s.currentWaypointIndex).lng) f.lat f.lng,
       Ev.log "Mission complete"] ++
      (if s.enableReturnToHome then
        [Ev.log "Returning to home", Ev.returningHome (some s.missionId)]
       else [Ev.missionComplete s.missionId]) ++
      [Ev.log "Ready for next mission"] ∧
    (tick f s).1.missionState = MissionState.WAITING ∧
    (tick f s).1.currentWaypointIndex = -1 ∧
    (tick f s).1.missionActive = false ∧
    (tick f s).1.missionId = "" ∧
    (tick f s).1.totalWaypoints = 0 ∧
    (∀ j, (tick f s).1.waypoints j = emptyWaypoint) ∧
    (∀ l : List Inp, (∀ i ∈ l, i.isStartMission = false) →
      ∀ e ∈ (runAll (tick f s).1 l).2, e.isWaypointReachedEv = false) := by
  have hguard : ¬(s.missionState ≠ MissionState.NAVIGATING ∨ s.currentWaypointIndex < 0 ∨
      s.totalWaypoints ≤ s.currentWaypointIndex) := by
    push_neg
    exact ⟨hnav, hlo, hhi⟩
  have hck : tick f s =
      ((completeMission
         { s with
            waypoints := fun j =>
              if (j : Int) = s.currentWaypointIndex then
                { wpAt s.waypoints s.currentWaypointIndex with reached := true }
              else s.waypoints j
            currentWaypointIndex := s.currentWaypointIndex + 1 }).1,
       [Ev.log "Waypoint reached",
        Ev.waypointReached s.missionId s.currentWaypointIndex
          (wpAt s.waypoints s.currentWaypointIndex).name
          (calculateDistance f.lat f.lng (wpAt s.waypoints s.currentWaypointIndex).lat
            (wpAt s.waypoints s.currentWaypointIndex).lng) f.lat f.lng] ++
       (completeMission
         { s with
            waypoints := fun j =>
              if (j : Int) = s.currentWaypointIndex then
                { wpAt s.waypoints s.currentWaypointIndex with reached := true }
              else s.waypoints j
            currentWaypointIndex := s.currentWaypointIndex + 1 }).2) := by
    unfold tick
    rw [if_pos ⟨hnav, hv⟩]
    simp only [checkWaypoint]
    rw [if_neg hguard, if_pos ⟨hd, hr⟩, if_neg (by omega :
      ¬s.currentWaypointIndex + 1 < s.totalWaypoints)]
  refine ⟨?_, ?_, ?_, ?_, ?_, ?_, ?_, ?_⟩
  · rw [hck]
    by_cases hrth : s.enableReturnToHome = true <;>
      simp [completeMission, resetMission, hrth]
  · rw [hck]; rfl
  · rw [hck]; rfl
  · rw [hck]; rfl
  · rw [hck]; rfl
  · rw [hck]; rfl
  · rw [hck]; intro j; rfl
  · intro l hl
    refine quiet_run l (tick f s).1 ?_ ?_ hl
    · rw [hck]; rfl
    · rw [hck]
      intro hcc
      simp [completeMission, resetMission] at hcc

/-- Witness for C3 at a concrete one-waypoint mission with the fix
exactly on the target (distance zero): the tick ends in the reset
`WAITING` state. -/
theorem lastWaypoint_completion_witness :
    (tick fix10 navState1).1.missionState = MissionState.WAITING :=
  (lastWaypoint_completion navState1 fix10 rfl rfl (by decide) (by decide) (by decide)
    (by
      show calculateDistance 10 10 10 10 ≤ waypointReachedDistance
      rw [calculateDistance_self]
      norm_num [waypointReachedDistance])
    rfl).2.1

/-- The framer's split never returns an empty list of parts. -/
theorem splitNl_ne_nil (s : List Char) : splitNl s ≠ [] := by
  cases s with
  | nil => simp [splitNl]
  | cons c cs =>
    rw [splitNl]
    by_cases hc : c = '\n'
    · rw [if_pos hc]
      exact List.cons_ne_nil _ _
    · rw [if_neg hc]
      cases h : splitNl cs with
      | nil => simp
      | cons p ps => simp

/-- Re-terminating every part but the last and appending the last
part reconstructs the split input exactly. -/
theorem splitNl_reconstruct (s : List Char) :
    ((splitNl s).dropLast.map (fun l => l ++ ['\n'])).flatten ++ (splitNl s).getLastD [] = s := by
  induction s with
  | nil => rfl
  | cons c cs ih =>
    by_cases hc : c = '\n'
    · subst hc
      rw [splitNl, if_pos rfl]
      cases h : splitNl cs with
      | nil => exact absurd h (splitNl_ne_nil cs)
      | cons p ps =>
        rw [h] at ih
        simp only [List.dropLast_cons₂, List.map_cons, List.flatten_cons, List.nil_append,
          List.getLastD_eq_getLast?, List.getLast?_cons_cons] at ih ⊢
        rw [← ih]
        simp
    · rw [splitNl, if_neg hc]
      cases h : splitNl cs with
      | nil => exact absurd h (splitNl_ne_nil cs)
      | cons p ps =>
        rw [h] at ih
        cases ps with
        | nil =>
          simp only [List.dropLast_single, List.map_nil, List.flatten_nil, List.nil_append,
            List.getLastD_eq_getLast?, List.getLast?_singleton, Option.getD_some] at ih
          simp [ih]
        | cons q qs =>
          simp only [List.dropLast_cons₂, List.map_cons, List.flatten_cons,
            List.getLastD_eq_getLast?, List.getLast?_cons_cons] at ih ⊢
          rw [← ih]
          simp

/-- No part produced by the split contains the line terminator. -/
theorem splitNl_no_nl (s : List Char) : ∀ l ∈ splitNl s, '\n' ∉ l := by
  induction s with
  | nil =>
    intro l hl
    simp [splitNl] at hl
    simp [hl]
  | cons c cs ih =>
    intro l hl
    rw [splitNl] at hl
    by_cases hc : c = '\n'
    · rw [if_pos hc] at hl
      rcases List.mem_cons.mp hl with h | h
      · simp [h]
      · exact ih l h
    · rw [if_neg hc] at hl
      cases h : splitNl cs with
      | nil => exact absurd h (splitNl_ne_nil cs)
      | cons p ps =>
        rw [h] at hl
        rcases List.mem_cons.mp hl with h2 | h2
        · subst h2
          intro hmem
          rcases List.mem_cons.mp hmem with h3 | h3
          · exact hc h3.symm
          · exact ih p (h ▸ List.mem_cons_self p ps) h3
        · exact ih l (h ▸ List.mem_cons_of_mem p h2)

/-- One framer call hands on exactly the newline-terminated prefix of
buffer-plus-chunk and retains the unterminated tail, with no
terminator inside any handed-on line or the retained tail. -/
theorem feedChunk_reconstruct (buf chunk : List Char) :
    ((feedChunk buf chunk).1.map (fun l => l ++ ['\n'])).flatten ++ (feedChunk buf chunk).2 =
      buf ++ chunk ∧
    '\n' ∉ (feedChunk buf chunk).2 ∧
    ∀ l ∈ (feedChunk buf chunk).1, '\n' ∉ l := by
  refine ⟨splitNl_reconstruct (buf ++ chunk), ?_, ?_⟩
  · show '\n' ∉ (splitNl (buf ++ chunk)).getLastD []
    have hne := splitNl_ne_nil (buf ++ chunk)
    cases h : splitNl (buf ++ chunk) with
    | nil => exact absurd h hne
    | cons p ps =>
      have hm : (p :: ps).getLastD [] ∈ p :: ps := by
        rw [List.getLastD_cons]
        exact List.getLastD_mem_cons ps p
      exact splitNl_no_nl (buf ++ chunk) _ (h ▸ hm)
  · intro l hl
    exact splitNl_no_nl (buf ++ chunk) l (List.dropLast_subset _ hl)

/-- Feeding a chunk sequence from any starting buffer loses, forges
and reorders nothing: the handed-on lines re-terminated, followed by
the retained tail, spell out buffer-plus-input exactly. -/
theorem feedAll_reconstruct (chunks : List (List Char)) : ∀ buf : List Char,
    ((feedAll buf chunks).1.map (fun l => l ++ ['\n'])).flatten ++ (feedAll buf chunks).2 =
      buf ++ chunks.flatten ∧
    ('\n' ∉ buf → '\n' ∉ (feedAll buf chunks).2) ∧
    ∀ l ∈ (feedAll buf chunks).1, '\n' ∉ l := by
  induction chunks with
  | nil =>
    intro buf
    refine ⟨by simp [feedAll], fun h => h, by simp [feedAll]⟩
  | cons c cs ih =>
    intro buf
    obtain ⟨hc1, hc2, hc3⟩ := feedChunk_reconstruct buf c
    obtain ⟨hi1, hi2, hi3⟩ := ih (feedChunk buf c).2
    refine ⟨?_, fun _ => hi2 hc2, ?_⟩
    · show (((feedChunk buf c).1 ++ (feedAll (feedChunk buf c).2 cs).1).map
          (fun l => l ++ ['\n'])).flatten ++ (feedAll (feedChunk buf c).2 cs).2 =
        buf ++ (c :: cs).flatten
      rw [List.map_append, List.flatten_append, List.append_assoc, hi1, ← List.append_assoc,
        hc1]
      simp
    · intro l hl
      have hl' : l ∈ (feedChunk buf c).1 ++ (feedAll (feedChunk buf c).2 cs).1 := hl
      rcases List.mem_append.mp hl' with h | h
      · exact hc3 l h
      · exact hi3 l h

/-- Claim C7: for every sequence of chunks fed to the framer from an empty
buffer, the complete lines are returned in arrival order with exact
reconstruction (re-terminating them and appending the retained tail
yields the input byte-for-byte, so nothing is lost, duplicated or
reordered), the retained tail is exactly the trailing unterminated
segment, and in particular feeding "AB" then "CD" + newline yields
the single line "ABCD" with no residual fragment. -/
theorem framer_reassembly :
    (∀ chunks : List (List Char),
      ((feedAll [] chunks).1.map (fun l => l ++ ['\n'])).flatten ++ (feedAll [] chunks).2 =
        chunks.flatten ∧
      '\n' ∉ (feedAll [] chunks).2 ∧
      ∀ l ∈ (feedAll [] chunks).1, '\n' ∉ l) ∧
    feedAll [] [['A', 'B'], ['C', 'D', '\n']] = ([['A', 'B', 'C', 'D']], []) := by
  refine ⟨fun chunks => ?_, rfl⟩
  obtain ⟨h1, h2, h3⟩ := feedAll_reconstruct chunks []
  exact ⟨by simpa using h1, h2 (by simp), h3⟩

/-- Witness for C7 at the concrete chunk "AB": reconstruction holds at
that input. -/
theorem framer_reassembly_witness :
    ((feedAll [] [['A', 'B']]).1.map (fun l => l ++ ['\n'])).flatten ++
      (feedAll [] [['A', 'B']]).2 = [['A', 'B']].flatten :=
  (framer_reassembly.1 [['A', 'B']]).1

/-- Claim C10: a `start_mission` received while navigating is accepted
unconditionally and replaces the old mission wholesale: the new
waypoints overwrite the old ones, the parameters and id are replaced,
the state becomes `NAVIGATING` (through `LOADED`) with
`current_index = 0`, and the only output is the load logs, the
confirmation and `navigation_started` — no rejection, no error event
and no completion event for the abandoned mission. -/
theorem startMission_replaces_mission (s : ControllerState) (spec : MissionSpec)
    (_hnav : s.missionState = MissionState.NAVIGATING)
    (hpos : 0 < spec.totalWaypoints) :
    (processCommand (some (Cmd.startMission spec)) s).1 =
      { s with
          totalWaypoints := spec.totalWaypoints
          maxSpeed := spec.maxSpeed
          maxAltitude := spec.maxAltitude
          enableReturnToHome := spec.returnToHome
          missionId := spec.createdAt
          waypoints := fun j =>
            if (j : Int) < spec.totalWaypoints then
              loadWaypoint (spec.waypoints.getD j nullWaypointSpec)
            else s.waypoints j
          missionActive := true
          currentWaypointIndex := 0
          missionState := MissionState.NAVIGATING } ∧
    (processCommand (some (Cmd.startMission spec)) s).2 =
      Ev.log "Mission Loading" ::
        ((List.range (min spec.totalWaypoints 20).toNat).map (fun _ => Ev.log "WP") ++
         [Ev.log "Mission summary",
          Ev.missionConfirmation spec.createdAt spec.totalWaypoints "mission_loaded"] ++
         [Ev.log "Navigation started",
          Ev.navStarted spec.createdAt 0
            (loadWaypoint (spec.waypoints.getD 0 nullWaypointSpec)).name
            (loadWaypoint (spec.waypoints.getD 0 nullWaypointSpec)).lat
            (loadWaypoint (spec.waypoints.getD 0 nullWaypointSpec)).lng]) := by
  constructor
  · simp only [processCommand, loadMission, if_pos hpos]
  · simp only [processCommand, loadMission, Fin.val_zero, Nat.cast_zero, if_pos hpos]

/-- Witness for C10: replacing the running one-waypoint mission with
the two-waypoint payload yields the described navigating state. -/
theorem startMission_replaces_mission_witness :
    (processCommand (some (Cmd.startMission spec2)) navState1).1 =
      { navState1 with
          totalWaypoints := spec2.totalWaypoints
          maxSpeed := spec2.maxSpeed
          maxAltitude := spec2.maxAltitude
          enableReturnToHome := spec2.returnToHome
          missionId := spec2.createdAt
          waypoints := fun j =>
            if (j : Int) < spec2.totalWaypoints then
              loadWaypoint (spec2.waypoints.getD j nullWaypointSpec)
            else navState1.waypoints j
          missionActive := true
          currentWaypointIndex := 0
          missionState := MissionState.NAVIGATING } :=
  (startMission_replaces_mission navState1 spec2 rfl (by decide)).1
